import Mathlib

/-!
Verification of the PMTiles-viewer backend (Express server): the OAuth
client-credentials token manager and the credential-gated range-forwarding
proxy, shallowly embedded in Lean.  Times are modelled as integer
milliseconds since the epoch; JavaScript string truthiness (empty string is
falsy) is modelled explicitly wherever the source relies on it.
-/

/-- JS truthiness of an optional string value: `undefined`/`null` and the
empty string are falsy, every other string is truthy. -/
def truthyOpt : Option String → Bool
  | none => false
  | some s => !(s == "")

/-- Does `sub` occur as a contiguous run inside `l`? -/
def includesAux (sub : List Char) : List Char → Bool
  | [] => sub.isEmpty
  | c :: t => sub.isPrefixOf (c :: t) || includesAux sub t

/-- Model of `String.prototype.includes`: substring containment. -/
def jsIncludes (s sub : String) : Bool :=
  includesAux sub.data s.data

/-- Model of `x || d` for a JSON number field `x` that may be absent:
`undefined`, `null` and `0` are falsy and yield the default. -/
def jsOrDefault (o : Option Int) (d : Int) : Int :=
  match o with
  | some n => if n == 0 then d else n
  | none => d

/-- Template-literal interpolation of a possibly-undefined value:
JavaScript renders `undefined` as the string "undefined". -/
def jsTemplate : Option String → String
  | some s => s
  | none => "undefined"

/-- The JSON body produced by `res.json(\x7b error: msg \x7d)`. -/
def jsonError (msg : String) : String :=
  "\x7b\"error\":\"" ++ msg ++ "\"\x7d"

/-- Value of a hexadecimal digit character, if it is one. -/
def hexVal (c : Char) : Option Nat :=
  if '0' ≤ c && c ≤ '9' then some (c.toNat - 48)
  else if 'A' ≤ c && c ≤ 'F' then some (c.toNat - 55)
  else if 'a' ≤ c && c ≤ 'f' then some (c.toNat - 87)
  else none

/-- Uppercase hexadecimal digit for a value below 16. -/
def hexDigitUpper (n : Nat) : Char :=
  if n < 10 then Char.ofNat (48 + n) else Char.ofNat (55 + n)

/-- UTF-8 bytes of a Unicode scalar value. -/
def utf8Bytes (n : Nat) : List Nat :=
  if n < 128 then [n]
  else if n < 2048 then [192 + n / 64, 128 + n % 64]
  else if n < 65536 then [224 + n / 4096, 128 + (n / 64) % 64, 128 + n % 64]
  else [240 + n / 262144, 128 + (n / 4096) % 64, 128 + (n / 64) % 64, 128 + n % 64]

/-- Percent-escape of one byte, with uppercase hex digits. -/
def percentByte (b : Nat) : List Char :=
  ['%', hexDigitUpper (b / 16), hexDigitUpper (b % 16)]

/-- The characters `encodeURIComponent` leaves unescaped: ASCII
alphanumerics and the marks listed by ECMA-262. -/
def uriUnescaped (c : Char) : Bool :=
  ('A' ≤ c && c ≤ 'Z') || ('a' ≤ c && c ≤ 'z') || ('0' ≤ c && c ≤ '9') ||
  c == '-' || c == '_' || c == '.' || c == '!' || c == '~' || c == '*' ||
  c == Char.ofNat 39 || c == '(' || c == ')'

/-- Character-by-character body of `encodeURIComponent`. -/
def encodeChars : List Char → List Char
  | [] => []
  | c :: cs =>
      (if uriUnescaped c then [c]
       else (utf8Bytes c.toNat).foldr (fun b a => percentByte b ++ a) []) ++
      encodeChars cs

/-- Model of the ECMAScript builtin `encodeURIComponent`: unreserved
characters pass through, every other character is UTF-8 encoded and
percent-escaped. -/
def encodeURIComponent (s : String) : String :=
  String.mk (encodeChars s.data)

/-- Parse one percent-escaped UTF-8 continuation byte (`%XX` with
`0x80 ≤ XX < 0xC0`), returning its 6 payload bits and the rest. -/
def parseContByte : List Char → Option (Nat × List Char)
  | '%' :: h1 :: h2 :: rest =>
      match hexVal h1, hexVal h2 with
      | some d1, some d2 =>
          let b := 16 * d1 + d2
          if 128 ≤ b && b < 192 then some (b % 64, rest) else none
      | _, _ => none
  | _ => none

/-- Character-by-character body of `decodeURIComponent` (fuel-indexed so
that the kernel can evaluate it).  A percent sign must introduce a valid
percent-escaped UTF-8 byte sequence (no overlong forms, no surrogate code
points, no code point above 0x10FFFF); otherwise the whole decode fails,
modelling the URIError thrown by the builtin.  Other characters pass
through verbatim. -/
def decodeChars : Nat → List Char → Option (List Char)
  | _, [] => some []
  | 0, _ :: _ => none
  | fuel + 1, c :: cs =>
    if c == '%' then
      match cs with
      | h1 :: h2 :: rest =>
        match hexVal h1, hexVal h2 with
        | some d1, some d2 =>
          let b := 16 * d1 + d2
          if b < 128 then
            match decodeChars fuel rest with
            | some ds => some (Char.ofNat b :: ds)
            | none => none
          else if b < 194 then none
          else if b < 224 then
            match parseContByte rest with
            | some (v1, rest1) =>
                match decodeChars fuel rest1 with
                | some ds => some (Char.ofNat ((b % 32) * 64 + v1) :: ds)
                | none => none
            | none => none
          else if b < 240 then
            match parseContByte rest with
            | some (v1, rest1) =>
              match parseContByte rest1 with
              | some (v2, rest2) =>
                let cp := (b % 16) * 4096 + v1 * 64 + v2
                if cp < 2048 || (55296 ≤ cp && cp < 57344) then none
                else
                  match decodeChars fuel rest2 with
                  | some ds => some (Char.ofNat cp :: ds)
                  | none => none
              | none => none
            | none => none
          else if b < 245 then
            match parseContByte rest with
            | some (v1, rest1) =>
              match parseContByte rest1 with
              | some (v2, rest2) =>
                match parseContByte rest2 with
                | some (v3, rest3) =>
                  let cp := (b % 8) * 262144 + v1 * 4096 + v2 * 64 + v3
                  if cp < 65536 || 1114112 ≤ cp then none
                  else
                    match decodeChars fuel rest3 with
                    | some ds => some (Char.ofNat cp :: ds)
                    | none => none
                | none => none
              | none => none
            | none => none
          else none
        | _, _ => none
      | _ => none
    else
      match decodeChars fuel cs with
      | some ds => some (c :: ds)
      | none => none

/-- Model of the ECMAScript builtin `decodeURIComponent`; `none` models a
thrown URIError. -/
def decodeURIComponent (s : String) : Option String :=
  (decodeChars s.data.length s.data).map String.mk

/-- The `try \x7b url = decodeURIComponent(url) \x7d catch \x7b ... \x7d`
idiom of the proxy handler: on decode failure the raw value is kept. -/
def jsDecodeURI (u : String) : String :=
  (decodeURIComponent u).getD u

/- ## Token Manager -/

/-- The three credential environment variables read at startup
(`DATABRICKS_CLIENT_ID`, `DATABRICKS_CLIENT_SECRET`, `DATABRICKS_HOST`). -/
structure CredConfig where
  clientId : Option String
  clientSecret : Option String
  host : Option String
deriving DecidableEq

/-- The guard `!DATABRICKS_CLIENT_ID || !DATABRICKS_CLIENT_SECRET ||
!DATABRICKS_HOST` (negated): all three variables are set and nonempty. -/
def configPresent (c : CredConfig) : Bool :=
  truthyOpt c.clientId && truthyOpt c.clientSecret && truthyOpt c.host

/-- The process-wide mutable token state: the globals `accessToken` and
`tokenExpiry` (a Date, modelled as its millisecond timestamp). -/
structure TokenState where
  accessToken : Option String
  tokenExpiry : Option Int
deriving DecidableEq

/-- Both globals start as `null`. -/
def TokenState.init : TokenState := ⟨none, none⟩

/-- Outcome of the HTTP POST to the identity endpoint: `error` covers a
network error and a non-2xx response (axios throws on both); `ok` carries
the parsed response body's `access_token` and optional `expires_in`. -/
inductive TokenHttp where
  | error : TokenHttp
  | ok (access_token : String) (expires_in : Option Int) : TokenHttp
deriving DecidableEq

/-- `fetchDatabricksToken()`: returns `null` immediately when credentials
are missing; on a thrown error returns `null` leaving state untouched; on
success stores the token and `expiry = now + (expires_in || 3600) * 1000`
milliseconds and returns the token.  The pair is (new token state, returned
value). -/
def fetchDatabricksToken (cfg : CredConfig) (now : Int) (out : TokenHttp)
    (st : TokenState) : TokenState × Option String :=
  if configPresent cfg then
    match out with
    | .error => (st, none)
    | .ok tok expIn =>
        let expiresIn := jsOrDefault expIn 3600
        (⟨some tok, some (now + expiresIn * 1000)⟩, some tok)
  else (st, none)

/-- Negation of the refresh guard in `getValidAccessToken`:
`!(!accessToken || !tokenExpiry || now > tokenExpiry - 5*60*1000)`,
i.e. a truthy token is cached and now is at most expiry minus 5 minutes. -/
def tokenFresh (st : TokenState) (now : Int) : Bool :=
  match st.accessToken, st.tokenExpiry with
  | some tok, some e => !(tok == "") && !(now > e - 300000)
  | _, _ => false

/-- `getValidAccessToken()`: refetches unless a truthy token is cached
whose expiry is at least 5 minutes away, then returns the (possibly
updated) global `accessToken`.  The triple is (new token state, returned
token, number of `fetchDatabricksToken` invocations). -/
def getValidAccessToken (cfg : CredConfig) (now : Int) (out : TokenHttp)
    (st : TokenState) : TokenState × Option String × Nat :=
  if tokenFresh st now then (st, st.accessToken, 0)
  else
    let r := fetchDatabricksToken cfg now out st
    (r.1, r.1.accessToken, 1)

/-- One interaction with the token manager: a direct
`fetchDatabricksToken()` call (as at startup) or a `getValidAccessToken()`
call, at a given time with a given identity-endpoint outcome. -/
inductive TMEvent where
  | fetch (now : Int) (out : TokenHttp) : TMEvent
  | getValid (now : Int) (out : TokenHttp) : TMEvent

/-- Whether a `fetchDatabricksToken` invocation reaches the network and
gets a 2xx response. -/
def fetchSucceeded (cfg : CredConfig) (out : TokenHttp) : Bool :=
  configPresent cfg &&
    (match out with
     | .error => false
     | .ok _ _ => true)

/-- One step of the token manager; also reports, for each
`fetchDatabricksToken` invocation the step performed, whether it
succeeded. -/
def tmStep (cfg : CredConfig) (st : TokenState) : TMEvent → TokenState × List Bool
  | .fetch now out => ((fetchDatabricksToken cfg now out st).1, [fetchSucceeded cfg out])
  | .getValid now out =>
      let r := getValidAccessToken cfg now out st
      (r.1, if r.2.2 == 0 then [] else [fetchSucceeded cfg out])

/-- Run of the token manager over a sequence of events, collecting the
success flags of all fetch attempts in order. -/
def tmRun (cfg : CredConfig) (st : TokenState) : List TMEvent → TokenState × List Bool
  | [] => (st, [])
  | e :: es =>
      let s1 := tmStep cfg st e
      let s2 := tmRun cfg s1.1 es
      (s2.1, s1.2 ++ s2.2)

/-- "No successful fetch has occurred since process start or since the
last fetch failure": scanning the attempts in order, a success clears the
flag and a failure re-establishes it. -/
def noSuccessSinceStartOrLastFailure (attempts : List Bool) : Bool :=
  attempts.foldl (fun _ b => if b then false else true) true

/-- "No successful fetch has occurred since process start at all." -/
def noSuccessfulFetchEver (attempts : List Bool) : Bool :=
  attempts.all (fun b => !b)

/- ## Range-Forwarding Proxy -/

/-- The parts of an inbound GET /proxy/pmtiles request the handler reads:
the `url` query parameter, the `Range` and `Accept` headers, and the
protocol/host used to build the TileJSON tiles template. -/
structure ProxyRequest where
  url : Option String
  range : Option String
  accept : Option String
  protocol : String
  host : String
deriving DecidableEq

/-- The headers (and target) of the upstream GET issued by the proxy. -/
structure UpstreamReqHeaders where
  targetUrl : String
  userAgent : String
  authorization : Option String
  range : Option String
deriving DecidableEq

/-- The parts of the upstream response the handler reads. -/
structure UpstreamResponse where
  status : Nat
  contentRange : Option String
  contentLength : Option String
  acceptRanges : Option String
deriving DecidableEq

/-- `response.ok` of the fetch API: status in the range 200..299. -/
def UpstreamResponse.isOk (r : UpstreamResponse) : Bool :=
  200 ≤ r.status && r.status < 300

/-- Outcome of the upstream fetch: a thrown network error, or a response. -/
inductive UpstreamOutcome where
  | networkError : UpstreamOutcome
  | response (r : UpstreamResponse) : UpstreamOutcome
deriving DecidableEq

/-- The headers and status the proxy sets on a successful streamed
response. -/
structure ProxyRespHeaders where
  status : Nat
  contentType : String
  accessControlAllowOrigin : String
  accessControlAllowMethods : String
  accessControlAllowHeaders : String
  contentRange : Option String
  contentLength : Option String
  acceptRanges : Option String
deriving DecidableEq

/-- The four ways the handler answers: 400 with a JSON body, the TileJSON
descriptor, a streamed success, or 500 with a JSON body. -/
inductive ProxyResult where
  | badRequest (body : String) : ProxyResult
  | tileJson (typ : String) (tiles : String) (minzoom maxzoom : Nat) : ProxyResult
  | stream (h : ProxyRespHeaders) : ProxyResult
  | serverError (body : String) : ProxyResult
deriving DecidableEq

/-- Everything observable about one handler run: the response, the
upstream requests issued (in order), whether `getValidAccessToken` was
invoked, and the token state afterwards. -/
structure ProxyOutcome where
  result : ProxyResult
  upstreamRequests : List UpstreamReqHeaders
  tokenRequested : Bool
  tokenState : TokenState
deriving DecidableEq

/-- `!req.headers.range && req.headers.accept &&
req.headers.accept.includes('application/json')`. -/
def isTileJsonRequest (req : ProxyRequest) : Bool :=
  !(truthyOpt req.range) &&
    (match req.accept with
     | some a => !(a == "") && jsIncludes a "application/json"
     | none => false)

/-- A falsy header value is not forwarded (`if (response.headers.get(h))`). -/
def keepTruthy : Option String → Option String
  | some v => if v == "" then none else some v
  | none => none

/-- The headers of the upstream GET, as built on lines 113-129 of the
handler: a fixed User-Agent, a Bearer Authorization header when
`getValidAccessToken` returned a truthy token, and the inbound Range
header forwarded when truthy. -/
def upstreamHeadersOf (cfg : CredConfig) (now : Int) (tokOut : TokenHttp)
    (st : TokenState) (req : ProxyRequest) (url : String) : UpstreamReqHeaders :=
  { targetUrl := url
    userAgent := "PMTiles-Viewer/1.0"
    authorization :=
      match (getValidAccessToken cfg now tokOut st).2.1 with
      | some t => if t == "" then none else some ("Bearer " ++ t)
      | none => none
    range := keepTruthy req.range }

/-- The GET /proxy/pmtiles handler.  `cfg`, `now`, `tokOut`, `st` feed the
token manager; `upstream` is the outcome of the single upstream fetch, had
one been issued.  Mirrors the source: 400 when `url` is falsy; decode the
url keeping the raw value on URIError; answer the TileJSON descriptor for
a metadata probe; otherwise obtain a token, issue the upstream GET with
User-Agent, optional Bearer Authorization and forwarded Range, and either
mirror a success (status 206 iff upstream 206, octet-stream content type,
permissive CORS, truthy range-related headers copied) or answer 500 on a
thrown error or non-ok status. -/
def handleProxyRequest (cfg : CredConfig) (now : Int) (tokOut : TokenHttp)
    (st : TokenState) (req : ProxyRequest) (upstream : UpstreamOutcome) :
    ProxyOutcome :=
  match req.url with
  | none => ⟨.badRequest (jsonError "URL parameter required"), [], false, st⟩
  | some u =>
    if u == "" then ⟨.badRequest (jsonError "URL parameter required"), [], false, st⟩
    else
      let url := jsDecodeURI u
      if isTileJsonRequest req then
        ⟨.tileJson "vector"
            (req.protocol ++ "://" ++ req.host ++ "/proxy/pmtiles?url=" ++ url)
            0 14,
         [], false, st⟩
      else
        let r := getValidAccessToken cfg now tokOut st
        let headers : UpstreamReqHeaders := upstreamHeadersOf cfg now tokOut st req url
        match upstream with
        | .networkError =>
            ⟨.serverError (jsonError "Failed to fetch PMTiles file"), [headers], true, r.1⟩
        | .response resp =>
            if resp.isOk then
              ⟨.stream
                  { status := if resp.status == 206 then 206 else 200
                    contentType := "application/octet-stream"
                    accessControlAllowOrigin := "*"
                    accessControlAllowMethods := "GET, HEAD, OPTIONS"
                    accessControlAllowHeaders := "Range, Authorization"
                    contentRange := keepTruthy resp.contentRange
                    contentLength := keepTruthy resp.contentLength
                    acceptRanges := keepTruthy resp.acceptRanges },
               [headers], true, r.1⟩
            else
              ⟨.serverError (jsonError "Failed to fetch PMTiles file"), [headers], true, r.1⟩

/- ## Configuration-resolution endpoint -/

/-- The JSON object answered by GET /api/config. -/
structure ApiConfigResponse where
  pmtilesUrl : String
  sourceLayer : Option String
  baseMapUrl : String
  zoom : Nat
deriving DecidableEq

/-- The GET /api/config handler: templates the configured host and the
given path into the Unity-Catalog files URL, percent-encodes it into the
proxy URL, and answers the descriptor with fixed base map and zoom.  The
second component counts upstream network calls the handler makes: it is 0
by construction, as the source performs no outbound request here. -/
def apiConfig (host : Option String) (filePath sourceLayer : Option String) :
    ApiConfigResponse × Nat :=
  let ucUrl := "https://" ++ jsTemplate host ++ "/api/2.0/fs/files" ++ jsTemplate filePath
  ({ pmtilesUrl := "/proxy/pmtiles?url=" ++ encodeURIComponent ucUrl
     sourceLayer := sourceLayer
     baseMapUrl := "https://tile.openstreetmap.org/{z}/{x}/{y}.png"
     zoom := 7 }, 0)

/- ## Standard query-string parsing (claim apparatus, not repository code):
a client that reads the `url` query parameter of an advertised tiles URL
does so with these WHATWG-style semantics: the query is everything after
the first question mark, parameters are separated by ampersands, the value
is everything after the first equals sign, percent-escapes decoded. -/

/-- Characters after the first question mark, if any. -/
def dropUntilQuestion : List Char → Option (List Char)
  | [] => none
  | c :: cs => if c == '?' then some cs else dropUntilQuestion cs

/-- Split on ampersands. -/
def splitAmp : List Char → List (List Char)
  | [] => [[]]
  | c :: cs =>
      let r := splitAmp cs
      if c == '&' then [] :: r
      else
        match r with
        | p :: ps => (c :: p) :: ps
        | [] => [[c]]

/-- If `piece` is `key` followed by an equals sign, its value part. -/
def stripKey : List Char → List Char → Option (List Char)
  | [], '=' :: v => some v
  | k :: ks, p :: ps => if k == p then stripKey ks ps else none
  | _, _ => none

/-- First parameter with the given key. -/
def findParam (key : List Char) : List (List Char) → Option (List Char)
  | [] => none
  | p :: ps =>
      match stripKey key p with
      | some v => some v
      | none => findParam key ps

/-- Value of a query parameter of a URL, percent-decoded (raw on a failed
decode, as lenient parsers do). -/
def getQueryParam (s : String) (key : String) : Option String :=
  match dropUntilQuestion s.data with
  | none => none
  | some q =>
      match findParam key.data (splitAmp q) with
      | none => none
      | some v =>
          match decodeChars v.length v with
          | some d => some (String.mk d)
          | none => some (String.mk v)

/- ## Claim formalizations and helper lemmas -/

/-- The cached-token condition exactly as claim C1 words it: a token is
cached, an expiry is cached, and the expiry is MORE than 5 minutes in the
future (strict inequality, no truthiness on the token). -/
def claimFresh (st : TokenState) (now : Int) : Bool :=
  match st.accessToken, st.tokenExpiry with
  | some _, some e => e - now > 300000
  | _, _ => false

/-- Claim C1 as stated: under the claimed freshness condition the cached
token is returned with no fetch; otherwise exactly one fetch happens and
the then-cached token is returned; in particular two calls within the
same minute after any successful fetch perform no further network call. -/
def claimC1 : Prop :=
  (∀ (cfg : CredConfig) (now : Int) (out : TokenHttp) (st : TokenState),
      claimFresh st now = true →
      getValidAccessToken cfg now out st = (st, st.accessToken, 0)) ∧
  (∀ (cfg : CredConfig) (now : Int) (out : TokenHttp) (st : TokenState),
      claimFresh st now = false →
      (getValidAccessToken cfg now out st).2.2 = 1 ∧
      (getValidAccessToken cfg now out st).2.1 =
        (getValidAccessToken cfg now out st).1.accessToken) ∧
  (∀ (cfg : CredConfig) (t0 : Int) (tok : String) (expIn : Option Int)
      (t1 t2 : Int) (o1 o2 : TokenHttp),
      configPresent cfg = true → t0 ≤ t1 → t1 ≤ t2 → t2 ≤ t0 + 60000 →
      (getValidAccessToken cfg t1 o1
          (fetchDatabricksToken cfg t0 (.ok tok expIn) TokenState.init).1).2.2 = 0 ∧
      (getValidAccessToken cfg t2 o2
          (getValidAccessToken cfg t1 o1
            (fetchDatabricksToken cfg t0 (.ok tok expIn) TokenState.init).1).1).2.2 = 0)

/-- Claim C2 as stated: in every reachable state, the cached token is
absent exactly when no successful fetch has occurred since process start
or since the last fetch failure. -/
def claimC2 : Prop :=
  ∀ (cfg : CredConfig) (events : List TMEvent),
    ((tmRun cfg TokenState.init events).1.accessToken).isNone =
      noSuccessSinceStartOrLastFailure (tmRun cfg TokenState.init events).2

/-- Per-step form of the token-presence invariant: after one event the
token is absent iff it was absent before and the step performed no
successful fetch. -/
theorem tmStep_accessToken_isNone (cfg : CredConfig) (st : TokenState) (e : TMEvent) :
    ((tmStep cfg st e).1.accessToken).isNone =
      (st.accessToken.isNone && (tmStep cfg st e).2.all (fun b => !b)) := by
  cases e with
  | fetch now out =>
      simp only [tmStep]
      unfold fetchDatabricksToken fetchSucceeded
      cases h : configPresent cfg <;> cases out <;> simp
  | getValid now out =>
      simp only [tmStep]
      unfold getValidAccessToken
      cases hf : tokenFresh st now
      · simp only [Bool.false_eq_true, if_false]
        unfold fetchDatabricksToken fetchSucceeded
        cases h : configPresent cfg <;> cases out <;> simp
      · simp

/-- Run form of the token-presence invariant, for any starting state. -/
theorem tmRun_accessToken_isNone (cfg : CredConfig) (events : List TMEvent) :
    ∀ st : TokenState,
      ((tmRun cfg st events).1.accessToken).isNone =
        (st.accessToken.isNone && (tmRun cfg st events).2.all (fun b => !b)) := by
  induction events with
  | nil => intro st; simp [tmRun]
  | cons e es ih =>
      intro st
      simp only [tmRun, List.all_append]
      rw [ih (tmStep cfg st e).1, tmStep_accessToken_isNone cfg st e]
      cases st.accessToken.isNone <;>
        cases h : (tmStep cfg st e).2.all (fun b => !b) <;> simp [h]

/- ## C1 -/

/-- C1 (counterexample): the claim as stated is false at the boundary
instant.  With a cached token "tok" and cached expiry 300000 ms, at
now = 0 the expiry is exactly (not more than) 5 minutes in the future, so
the claim requires a fetch; the source's guard
`new Date() > new Date(tokenExpiry.getTime() - 5*60*1000)` is strict, so
no fetch is performed (0 invocations, not 1). -/
theorem claimC1_counterexample : ¬claimC1 := by
  intro h
  have h2 := h.2.1 ⟨some "id", some "secret", some "host"⟩ 0 TokenHttp.error
      ⟨some "tok", some 300000⟩ (by decide)
  exact absurd h2.1 (by decide)

/-- C1 (amended): if a nonempty token and an expiry are cached and the
expiry is AT LEAST 5 minutes in the future, the cached token is returned
and no fetch is performed; otherwise fetchDatabricksToken is invoked
exactly once and the call returns whatever token is then cached (the
previous, possibly stale state if the refresh failed).  In particular two
calls within the same minute after a successful fetch that stored a
nonempty token with the default one-hour lifetime perform no further
network call. -/
theorem getValidAccessToken_spec :
    (∀ (cfg : CredConfig) (now : Int) (out : TokenHttp) (st : TokenState),
        tokenFresh st now = true →
        getValidAccessToken cfg now out st = (st, st.accessToken, 0)) ∧
    (∀ (cfg : CredConfig) (now : Int) (out : TokenHttp) (st : TokenState),
        tokenFresh st now = false →
        getValidAccessToken cfg now out st =
          ((fetchDatabricksToken cfg now out st).1,
           (fetchDatabricksToken cfg now out st).1.accessToken, 1)) ∧
    (∀ (cfg : CredConfig) (t0 : Int) (tok : String) (t1 t2 : Int) (o1 o2 : TokenHttp),
        configPresent cfg = true → tok ≠ "" → t0 ≤ t1 → t1 ≤ t2 → t2 ≤ t0 + 60000 →
        getValidAccessToken cfg t1 o1
            (fetchDatabricksToken cfg t0 (.ok tok none) TokenState.init).1 =
          ((fetchDatabricksToken cfg t0 (.ok tok none) TokenState.init).1, some tok, 0) ∧
        getValidAccessToken cfg t2 o2
            (fetchDatabricksToken cfg t0 (.ok tok none) TokenState.init).1 =
          ((fetchDatabricksToken cfg t0 (.ok tok none) TokenState.init).1, some tok, 0)) := by
  refine ⟨?_, ?_, ?_⟩
  · intro cfg now out st h
    simp [getValidAccessToken, h]
  · intro cfg now out st h
    simp [getValidAccessToken, h]
  · intro cfg t0 tok t1 t2 o1 o2 hcfg htok h01 h12 h2
    have hne : (tok == "") = false := beq_eq_false_iff_ne.mpr htok
    have hst : fetchDatabricksToken cfg t0 (TokenHttp.ok tok none) TokenState.init =
        (⟨some tok, some (t0 + 3600000)⟩, some tok) := by
      simp [fetchDatabricksToken, hcfg, jsOrDefault]
    have hf1 : tokenFresh ⟨some tok, some (t0 + 3600000)⟩ t1 = true := by
      simp [tokenFresh, hne]
      omega
    have hf2 : tokenFresh ⟨some tok, some (t0 + 3600000)⟩ t2 = true := by
      simp [tokenFresh, hne]
      omega
    rw [hst]
    exact ⟨by simp [getValidAccessToken, hf1], by simp [getValidAccessToken, hf2]⟩

/-- C1 (witness): concrete instance of the two-calls conjunct. -/
theorem getValidAccessToken_spec_witness :
    getValidAccessToken ⟨some "id", some "secret", some "host"⟩ 1000 TokenHttp.error
        (fetchDatabricksToken ⟨some "id", some "secret", some "host"⟩ 0
          (TokenHttp.ok "tok" none) TokenState.init).1 =
      ((fetchDatabricksToken ⟨some "id", some "secret", some "host"⟩ 0
          (TokenHttp.ok "tok" none) TokenState.init).1, some "tok", 0) :=
  (getValidAccessToken_spec.2.2 ⟨some "id", some "secret", some "host"⟩ 0 "tok" 1000 2000
    TokenHttp.error TokenHttp.error (by decide) (by decide) (by decide) (by decide)
    (by decide)).1

/- ## C2 -/

/-- C2 (counterexample): the claimed invariant is false.  After a
successful fetch at time 0 followed by a failed fetch at time 10, no
successful fetch has occurred since the last fetch failure, yet the cached
token is still "tok": the source's catch block only logs, it does not
clear the token. -/
theorem claimC2_counterexample : ¬claimC2 := by
  intro h
  have h2 := h ⟨some "id", some "secret", some "host"⟩
      [.fetch 0 (.ok "tok" none), .fetch 10 .error]
  exact absurd h2 (by decide)

/-- C2 (amended): in every reachable state, the cached accessToken is
absent if and only if no successful token fetch has occurred since process
start; a fetch failure leaves any previously cached token in place rather
than clearing it. -/
theorem accessToken_absent_iff_never_fetched (cfg : CredConfig) (events : List TMEvent) :
    ((tmRun cfg TokenState.init events).1.accessToken).isNone =
      noSuccessfulFetchEver (tmRun cfg TokenState.init events).2 := by
  rw [tmRun_accessToken_isNone]
  simp [noSuccessfulFetchEver, TokenState.init]

/- ## C3 -/

/-- C3: every failing execution of the token fetch — missing
configuration, or a thrown network/non-2xx error — leaves the token state
exactly as it was and returns no token. -/
theorem fetchDatabricksToken_failure (cfg : CredConfig) (now : Int) (out : TokenHttp)
    (st : TokenState) (h : configPresent cfg = false ∨ out = TokenHttp.error) :
    fetchDatabricksToken cfg now out st = (st, none) := by
  unfold fetchDatabricksToken
  rcases h with h | h
  · simp [h]
  · subst h
    split <;> simp

/-- C3 (witness): a thrown error with a previously cached token leaves
that exact state in place. -/
theorem fetchDatabricksToken_failure_witness :
    fetchDatabricksToken ⟨some "id", some "secret", some "host"⟩ 5 TokenHttp.error
        ⟨some "old", some 99⟩ = (⟨some "old", some 99⟩, none) :=
  fetchDatabricksToken_failure _ 5 _ _ (Or.inr rfl)

/- ## C4 -/

/-- C4: for every byte-range proxy request (url present and nonempty,
Range header present with a nonempty value), exactly one upstream request
is issued and its Range header is character-for-character the inbound
value. -/
theorem proxy_forwards_range_verbatim (cfg : CredConfig) (now : Int) (tokOut : TokenHttp)
    (st : TokenState) (req : ProxyRequest) (upstream : UpstreamOutcome) (u r : String)
    (hu : req.url = some u) (hu' : u ≠ "") (hr : req.range = some r) (hr' : r ≠ "") :
    ∃ h, (handleProxyRequest cfg now tokOut st req upstream).upstreamRequests = [h] ∧
      h.range = some r := by
  have hne : (u == "") = false := beq_eq_false_iff_ne.mpr hu'
  have hrne : (r == "") = false := beq_eq_false_iff_ne.mpr hr'
  have htj : isTileJsonRequest req = false := by
    simp [isTileJsonRequest, truthyOpt, hr, hrne]
  cases upstream with
  | networkError =>
      refine ⟨upstreamHeadersOf cfg now tokOut st req (jsDecodeURI u), ?_, ?_⟩
      · simp [handleProxyRequest, hu, hne, htj]
      · simp [upstreamHeadersOf, keepTruthy, hr, hrne]
  | response resp =>
      by_cases hok : resp.isOk = true
      · refine ⟨upstreamHeadersOf cfg now tokOut st req (jsDecodeURI u), ?_, ?_⟩
        · simp [handleProxyRequest, hu, hne, htj, hok]
        · simp [upstreamHeadersOf, keepTruthy, hr, hrne]
      · refine ⟨upstreamHeadersOf cfg now tokOut st req (jsDecodeURI u), ?_, ?_⟩
        · simp [handleProxyRequest, hu, hne, htj, hok]
        · simp [upstreamHeadersOf, keepTruthy, hr, hrne]

/-- C4 (witness). -/
theorem proxy_forwards_range_verbatim_witness :
    ∃ h, (handleProxyRequest ⟨some "id", some "secret", some "host"⟩ 0 TokenHttp.error
        TokenState.init
        ⟨some "http://up/f.pmtiles", some "bytes=0-16383", none, "http", "localhost:3000"⟩
        UpstreamOutcome.networkError).upstreamRequests = [h] ∧
      h.range = some "bytes=0-16383" :=
  proxy_forwards_range_verbatim _ _ _ _ _ _ _ _ rfl (by decide) rfl (by decide)

/- ## C5 -/

/-- C5: on a successful upstream response the proxy streams with status
206 iff upstream said 206 (200 for 200), Content-Type always
application/octet-stream, Access-Control-Allow-Origin *, and the
range-related headers Content-Range, Content-Length and Accept-Ranges
copied verbatim whenever present (nonempty) upstream. -/
theorem proxy_success_headers (cfg : CredConfig) (now : Int) (tokOut : TokenHttp)
    (st : TokenState) (req : ProxyRequest) (resp : UpstreamResponse) (u : String)
    (hu : req.url = some u) (hu' : u ≠ "") (htj : isTileJsonRequest req = false)
    (hok : resp.isOk = true) :
    ∃ h, (handleProxyRequest cfg now tokOut st req (.response resp)).result = .stream h ∧
      h.contentType = "application/octet-stream" ∧
      h.accessControlAllowOrigin = "*" ∧
      (resp.status = 206 → h.status = 206) ∧
      (resp.status = 200 → h.status = 200) ∧
      (∀ v, resp.contentRange = some v → v ≠ "" → h.contentRange = some v) ∧
      (∀ v, resp.contentLength = some v → v ≠ "" → h.contentLength = some v) ∧
      (∀ v, resp.acceptRanges = some v → v ≠ "" → h.acceptRanges = some v) := by
  have hne : (u == "") = false := beq_eq_false_iff_ne.mpr hu'
  refine ⟨{ status := if resp.status == 206 then 206 else 200,
            contentType := "application/octet-stream",
            accessControlAllowOrigin := "*",
            accessControlAllowMethods := "GET, HEAD, OPTIONS",
            accessControlAllowHeaders := "Range, Authorization",
            contentRange := keepTruthy resp.contentRange,
            contentLength := keepTruthy resp.contentLength,
            acceptRanges := keepTruthy resp.acceptRanges },
        ?_, rfl, rfl, ?_, ?_, ?_, ?_, ?_⟩
  · simp [handleProxyRequest, hu, hne, htj, hok]
  · intro h206; simp [h206]
  · intro h200; simp [h200]
  · intro v hv hv'; simp [keepTruthy, hv, beq_eq_false_iff_ne.mpr hv']
  · intro v hv hv'; simp [keepTruthy, hv, beq_eq_false_iff_ne.mpr hv']
  · intro v hv hv'; simp [keepTruthy, hv, beq_eq_false_iff_ne.mpr hv']

/-- C5 (witness): a 206 upstream response with concrete range headers. -/
theorem proxy_success_headers_witness :
    ∃ h, (handleProxyRequest ⟨some "id", some "secret", some "host"⟩ 0 TokenHttp.error
          TokenState.init
          ⟨some "http://up/f.pmtiles", some "bytes=0-16383", none, "http", "localhost:3000"⟩
          (.response ⟨206, some "bytes 0-16383/12345678", some "16384", some "bytes"⟩)).result =
        .stream h ∧
      h.contentType = "application/octet-stream" ∧
      h.accessControlAllowOrigin = "*" ∧
      h.status = 206 ∧
      h.contentRange = some "bytes 0-16383/12345678" ∧
      h.contentLength = some "16384" ∧
      h.acceptRanges = some "bytes" := by
  obtain ⟨h, h1, h2, h3, h4, _, h6, h7, h8⟩ :=
    proxy_success_headers ⟨some "id", some "secret", some "host"⟩ 0 TokenHttp.error
      TokenState.init
      ⟨some "http://up/f.pmtiles", some "bytes=0-16383", none, "http", "localhost:3000"⟩
      ⟨206, some "bytes 0-16383/12345678", some "16384", some "bytes"⟩
      "http://up/f.pmtiles" rfl (by decide) (by decide) (by decide)
  exact ⟨h, h1, h2, h3, h4 rfl, h6 _ rfl (by decide), h7 _ rfl (by decide),
    h8 _ rfl (by decide)⟩

/- ## C6 -/

/-- C6: a metadata probe (url present, no Range header, Accept containing
application/json) is answered directly with the static TileJSON
descriptor — tiles template pointing back at this proxy endpoint, minzoom
0, maxzoom 14 — with no upstream request, no token request, and the token
state untouched. -/
theorem proxy_metadata_probe (cfg : CredConfig) (now : Int) (tokOut : TokenHttp)
    (st : TokenState) (req : ProxyRequest) (up : UpstreamOutcome) (u a : String)
    (hu : req.url = some u) (hu' : u ≠ "") (hr : req.range = none)
    (ha : req.accept = some a) (haj : jsIncludes a "application/json" = true) :
    handleProxyRequest cfg now tokOut st req up =
      ⟨.tileJson "vector"
          (req.protocol ++ "://" ++ req.host ++ "/proxy/pmtiles?url=" ++ jsDecodeURI u)
          0 14,
       [], false, st⟩ := by
  have hane : (a == "") = false := by
    by_cases h : a = ""
    · subst h; exact absurd haj (by decide)
    · exact beq_eq_false_iff_ne.mpr h
  have hne : (u == "") = false := beq_eq_false_iff_ne.mpr hu'
  have htj : isTileJsonRequest req = true := by
    simp [isTileJsonRequest, truthyOpt, hr, ha, hane, haj]
  simp [handleProxyRequest, hu, hne, htj]

/-- C6 (witness). -/
theorem proxy_metadata_probe_witness :
    handleProxyRequest ⟨some "id", some "secret", some "host"⟩ 0 TokenHttp.error
        ⟨some "cached", some 7⟩
        ⟨some "http://up/f.pmtiles", none, some "application/json", "http", "localhost:3000"⟩
        UpstreamOutcome.networkError =
      ⟨.tileJson "vector" ("http" ++ "://" ++ "localhost:3000" ++ "/proxy/pmtiles?url=" ++
          jsDecodeURI "http://up/f.pmtiles") 0 14,
       [], false, ⟨some "cached", some 7⟩⟩ :=
  proxy_metadata_probe _ _ _ _ _ _ _ _ rfl (by decide) rfl rfl (by decide)

/- ## C7 -/

/-- C7: a GET /proxy/pmtiles with no url query parameter is answered with
400 and the JSON body saying the URL parameter is required; no upstream
request is made, the token manager is not consulted, and the token state
is unchanged. -/
theorem proxy_missing_url (cfg : CredConfig) (now : Int) (tokOut : TokenHttp)
    (st : TokenState) (req : ProxyRequest) (up : UpstreamOutcome)
    (hu : req.url = none) :
    handleProxyRequest cfg now tokOut st req up =
      ⟨.badRequest (jsonError "URL parameter required"), [], false, st⟩ ∧
    jsonError "URL parameter required" = "\x7b\"error\":\"URL parameter required\"\x7d" :=
  ⟨by simp [handleProxyRequest, hu], rfl⟩

/-- C7 (witness). -/
theorem proxy_missing_url_witness :
    handleProxyRequest ⟨some "id", some "secret", some "host"⟩ 0 TokenHttp.error
        ⟨some "t", some 9⟩ ⟨none, some "bytes=0-1", some "application/json", "http", "h"⟩
        UpstreamOutcome.networkError =
      ⟨.badRequest (jsonError "URL parameter required"), [], false, ⟨some "t", some 9⟩⟩ ∧
    jsonError "URL parameter required" = "\x7b\"error\":\"URL parameter required\"\x7d" :=
  proxy_missing_url _ _ _ _ _ _ rfl

/- ## C8 -/

/-- C8: when the upstream response status is outside 200..299 (so 206
counts as success), the whole proxy call fails with the generic 500 JSON
body, no upstream body bytes are forwarded (the result is the JSON error,
not a stream), and the upstream request is not retried: exactly one was
issued. -/
theorem proxy_upstream_error_500 (cfg : CredConfig) (now : Int) (tokOut : TokenHttp)
    (st : TokenState) (req : ProxyRequest) (resp : UpstreamResponse) (u : String)
    (hu : req.url = some u) (hu' : u ≠ "") (htj : isTileJsonRequest req = false)
    (hnok : resp.isOk = false) :
    (handleProxyRequest cfg now tokOut st req (.response resp)).result =
      .serverError (jsonError "Failed to fetch PMTiles file") ∧
    (handleProxyRequest cfg now tokOut st req (.response resp)).upstreamRequests.length = 1 := by
  have hne : (u == "") = false := beq_eq_false_iff_ne.mpr hu'
  constructor <;> simp [handleProxyRequest, hu, hne, htj, hnok]

/-- C8 (witness): a 404 upstream response. -/
theorem proxy_upstream_error_500_witness :
    (handleProxyRequest ⟨some "id", some "secret", some "host"⟩ 0 TokenHttp.error
        TokenState.init
        ⟨some "http://up/f.pmtiles", some "bytes=0-1", none, "http", "h"⟩
        (.response ⟨404, none, none, none⟩)).result =
      .serverError (jsonError "Failed to fetch PMTiles file") ∧
    (handleProxyRequest ⟨some "id", some "secret", some "host"⟩ 0 TokenHttp.error
        TokenState.init
        ⟨some "http://up/f.pmtiles", some "bytes=0-1", none, "http", "h"⟩
        (.response ⟨404, none, none, none⟩)).upstreamRequests.length = 1 :=
  proxy_upstream_error_500 _ _ _ _ _ ⟨404, none, none, none⟩ _ rfl (by decide) (by decide)
    (by decide)

/- ## C9 -/

/-- C9: for any configured host, the config endpoint called with
filePath=/Volumes/x/y/z.pmtiles and sourceLayer=layer1 answers a
pmtilesUrl that is this proxy's endpoint with the percent-encoded upstream
URL (the templated host and path) embedded, sourceLayer "layer1", the
fixed default base map URL and fixed zoom 7, with zero upstream network
calls; and with host dbc.example.com the pmtilesUrl is the concrete
percent-encoded string. -/
theorem apiConfig_spec :
    (∀ host : String,
        apiConfig (some host) (some "/Volumes/x/y/z.pmtiles") (some "layer1") =
          ({ pmtilesUrl := "/proxy/pmtiles?url=" ++
               encodeURIComponent
                 ("https://" ++ host ++ "/api/2.0/fs/files" ++ "/Volumes/x/y/z.pmtiles")
             sourceLayer := some "layer1"
             baseMapUrl := "https://tile.openstreetmap.org/{z}/{x}/{y}.png"
             zoom := 7 }, 0)) ∧
    (apiConfig (some "dbc.example.com") (some "/Volumes/x/y/z.pmtiles")
        (some "layer1")).1.pmtilesUrl =
      "/proxy/pmtiles?url=https%3A%2F%2Fdbc.example.com%2Fapi%2F2.0%2Ffs%2Ffiles%2FVolumes%2Fx%2Fy%2Fz.pmtiles" :=
  ⟨fun _ => rfl, by decide⟩

/- ## C10 -/

/-- C10: the tiles entry of the TileJSON descriptor is exactly the proxy
prefix followed by the percent-DECODED target URL verbatim (raw when
decoding throws), with no re-encoding; and for the concrete target whose
decoded form contains query-reserved characters, namely
https%3A%2F%2Fex.com%2Ft%3Fa%3D1%26b%3D2 decoding to
https://ex.com/t?a=1&b=2, parsing the url query parameter of the
advertised tiles URL recovers only https://ex.com/t?a=1, not the original
target: the decode-then-embed round trip is not the identity. -/
theorem tilejson_url_not_reencoded :
    (∀ (cfg : CredConfig) (now : Int) (tokOut : TokenHttp) (st : TokenState)
        (req : ProxyRequest) (up : UpstreamOutcome) (u : String),
        req.url = some u → u ≠ "" → isTileJsonRequest req = true →
        (handleProxyRequest cfg now tokOut st req up).result =
          .tileJson "vector"
            (req.protocol ++ "://" ++ req.host ++ "/proxy/pmtiles?url=" ++ jsDecodeURI u)
            0 14) ∧
    ((handleProxyRequest ⟨some "id", some "secret", some "host"⟩ 0 TokenHttp.error
        TokenState.init
        ⟨some "https%3A%2F%2Fex.com%2Ft%3Fa%3D1%26b%3D2", none, some "application/json",
         "http", "localhost:3000"⟩ UpstreamOutcome.networkError).result =
      ProxyResult.tileJson "vector"
        "http://localhost:3000/proxy/pmtiles?url=https://ex.com/t?a=1&b=2" 0 14 ∧
     getQueryParam "http://localhost:3000/proxy/pmtiles?url=https://ex.com/t?a=1&b=2"
         "url" = some "https://ex.com/t?a=1" ∧
     ("https://ex.com/t?a=1" : String) ≠ "https://ex.com/t?a=1&b=2") := by
  constructor
  · intro cfg now tokOut st req up u hu hu' htj
    have hne : (u == "") = false := beq_eq_false_iff_ne.mpr hu'
    simp [handleProxyRequest, hu, hne, htj]
  · exact ⟨by decide, by decide, by decide⟩

/-- C10 (witness): concrete instance of the universally quantified
conjunct, at an unencoded target URL. -/
theorem tilejson_url_not_reencoded_witness :
    (handleProxyRequest ⟨none, none, none⟩ 0 TokenHttp.error TokenState.init
        ⟨some "abc", none, some "application/json", "https", "example.org"⟩
        UpstreamOutcome.networkError).result =
      ProxyResult.tileJson "vector" "https://example.org/proxy/pmtiles?url=abc" 0 14 := by
  have h := tilejson_url_not_reencoded.1 ⟨none, none, none⟩ 0 TokenHttp.error TokenState.init
      ⟨some "abc", none, some "application/json", "https", "example.org"⟩
      UpstreamOutcome.networkError "abc" rfl (by decide) (by decide)
  rw [h]
  decide
